import Mathlib

/-!
Shallow embedding of the gomts MyTimeStation API client (Go).

Pure getters on `Config` (client.go) become Lean functions; the environment
variable `MTS_AUTH_TOKEN` is passed explicitly as a string parameter `env`
(the empty string stands for an unset variable, matching `os.Getenv`).
The authenticating transport `mtsTransport.RoundTrip` (department.go) is
embedded as a function from a request to a result together with an ordered
trace of observable events (header mutation is folded into the request
value; log emissions, the wire call and the invocation of the error mapper
are events).  The wrapped transport, the JSON decoder for the error
envelope and Go's `http.StatusText` table are parameters of the embedding.
-/

namespace Gomts

/-- Constants from client.go. -/
def defaultProtocol : String := "https"

def defaultUserAgent : String := "go.charbar.io/gomts"

def defaultHost : String := "api.mytimestation.com"

def defaultAPIVersion : String := "v1.2"

/-- Log levels of log/slog used by the client. -/
inductive Level
  | debug
  | info
  | warn
  | error
deriving DecidableEq, Repr

/-- The resolved logger of Config.GetLogger: either slog.New over the
user-supplied handler (modelled by an opaque numeric identity), or the
default slog.NewTextHandler writing to os.Stderr at the given level. -/
inductive Logger
  | fromHandler (h : Nat)
  | textLoggerStderr (level : Level)
deriving DecidableEq, Repr

/-- Config from client.go.  The pluggable Transport is not part of the
structure: it is passed to the transport embedding as a function.  The
LogHandler pointer is modelled as an optional opaque handler identity. -/
structure Config where
  Protocol : String := ""
  UserAgent : String := ""
  Host : String := ""
  APIVersion : String := ""
  Debug : Bool := false
  AuthToken : String := ""
  LogHandler : Option Nat := none
deriving DecidableEq, Repr

/-- Config.GetAuthToken: the configured token, or $MTS_AUTH_TOKEN when the
configured token is empty.  `env` is the value of the variable. -/
def Config.GetAuthToken (c : Config) (env : String) : String :=
  if c.AuthToken = "" then env else c.AuthToken

/-- Config.GetUserAgent, exactly as written in client.go: the branch tests
`c.AuthToken` (not `c.UserAgent`) against the empty string. -/
def Config.GetUserAgent (c : Config) : String :=
  if c.AuthToken = "" then defaultUserAgent else c.UserAgent

/-- Config.GetProtocol: the configured protocol or the default. -/
def Config.GetProtocol (c : Config) : String :=
  if c.Protocol = "" then defaultProtocol else c.Protocol

/-- Config.GetAPIVersion: the configured API version or the default. -/
def Config.GetAPIVersion (c : Config) : String :=
  if c.APIVersion = "" then defaultAPIVersion else c.APIVersion

/-- Config.GetHost: the configured host or the default. -/
def Config.GetHost (c : Config) : String :=
  if c.Host = "" then defaultHost else c.Host

/-- Config.GetBaseURL: `protocol://host/apiVersion`. -/
def Config.GetBaseURL (c : Config) : String :=
  c.GetProtocol ++ "://" ++ c.GetHost ++ "/" ++ c.GetAPIVersion

/-- Config.GetLogger: the user-specified handler when non-nil, otherwise a
text handler on os.Stderr whose level is debug when Debug is set and info
otherwise. -/
def Config.GetLogger (c : Config) : Logger :=
  match c.LogHandler with
  | some h => .fromHandler h
  | none =>
    let level := if c.Debug then Level.debug else Level.info
    .textLoggerStderr level

/-- Error from errors.go: a service error with a numeric code and a text,
rendering as `[code] text`. -/
structure Error where
  ErrorCode : Int
  ErrorText : String
deriving DecidableEq, Repr

/-- Error.Error renders `[%d] %s`. -/
def Error.render (e : Error) : String :=
  "[" ++ toString e.ErrorCode ++ "] " ++ e.ErrorText

/-- ErrorList from errors.go: a list of generic errors; each element is
modelled by its rendered message (the `%v` rendering of the Go error). -/
abbrev ErrorList := List String

/-- ErrorList.Error, exactly as written in the source: a string builder is
seeded with "error:", but the loop over the elements returns
`fmt.Sprintf(" %v ;", err)` on its first iteration, so a non-empty list
renders as the first element only and the builder is abandoned; an empty
list renders the builder content "error:". -/
def ErrorList.Error (l : ErrorList) : String :=
  match l with
  | [] => "error:"
  | e :: _ => " " ++ e ++ " ;"

/-- Sweeper.Sweep (internal/sweeper/sweeper.go), restricted to its error
outcome: each slated employee then department deletion may fail with a
rendered error message (`some msg`); failures are appended in order to a
gomts.ErrorList; a length-zero list yields nil (`none`), otherwise the
list itself is returned. -/
def Sweeper.sweep (employeeDeleteErrs departmentDeleteErrs : List (Option String)) :
    Option ErrorList :=
  let errList : ErrorList :=
    employeeDeleteErrs.filterMap id ++ departmentDeleteErrs.filterMap id
  if errList.length = 0 then none else some errList

/-- JSON values occurring in encoded request bodies.  The only object shape
needed is the string-to-string map of the custom_fields field, modelled by
the flat constructor jmap.  float64 values are modelled as rationals. -/
inductive JVal
  | jstr (s : String)
  | jnum (q : Rat)
  | jbool (b : Bool)
  | jnull
  | jmap (entries : List (String × String))
deriving DecidableEq, Repr

/-- DepartmentCreateRequest (department.go): one field Name with the url
tag `name` (no omitempty). -/
structure DepartmentCreateRequest where
  Name : String
deriving DecidableEq, Repr

/-- EmployeeCreateRequest (employee.go): url-tagged fields; all but Name
carry omitempty.  HourlyRate (float64) is modelled as a rational; the
CustomFields map is modelled as an association list. -/
structure EmployeeCreateRequest where
  Name : String := ""
  DepartmentID : String := ""
  DepartmentName : String := ""
  CustomEmployeeID : String := ""
  Title : String := ""
  HourlyRate : Rat := 0
  PIN : String := ""
  CustomFields : List (String × String) := []
deriving DecidableEq, Repr

/-- EmployeeUpdateRequest (employee.go): json-tagged pointer fields; Name
is tagged `json:"name"` without omitempty, all others carry omitempty. -/
structure EmployeeUpdateRequest where
  Name : Option String := none
  DepartmentID : Option String := none
  DepartmentName : Option String := none
  CustomEmployeeID : Option String := none
  Title : Option String := none
  HourlyRate : Option Rat := none
  PIN : Option String := none
  CustomFields : List (String × String) := []
  ConvertPrimaryDepartment : Option Bool := none
deriving DecidableEq, Repr

/-- Rendering of a rational standing in for Go's fmt rendering of a
float64 field value (the exact digit string of Go's formatter is not
modelled; only the zero test of omitempty is load-bearing). -/
def ratStr (q : Rat) : String :=
  if q.den = 1 then toString q.num else toString q.num ++ "/" ++ toString q.den

/-- Stable insertion of a key-value pair into a key-sorted list. -/
def insertPair (p : String × String) : List (String × String) → List (String × String)
  | [] => [p]
  | q :: rest => if p.1 < q.1 then p :: q :: rest else q :: insertPair p rest

/-- Stable key sort, as url.Values.Encode and fmt map rendering sort keys. -/
def sortPairs : List (String × String) → List (String × String)
  | [] => []
  | p :: rest => insertPair p (sortPairs rest)

/-- Go fmt rendering of a map[string]string value: `map[k1:v1 k2:v2]` with
keys sorted. -/
def mapStr (entries : List (String × String)) : String :=
  "map[" ++ String.intercalate " " ((sortPairs entries).map fun kv => kv.1 ++ ":" ++ kv.2) ++ "]"

/-- query.Values of a DepartmentCreateRequest: the `name` key is always
present (no omitempty). -/
def DepartmentCreateRequest.formValues (r : DepartmentCreateRequest) :
    List (String × String) :=
  [("name", r.Name)]

/-- query.Values of an EmployeeCreateRequest: tag-named keys in field
order; a field tagged omitempty is omitted when it holds the zero value of
its type (empty string, zero float, empty map). -/
def EmployeeCreateRequest.formValues (r : EmployeeCreateRequest) :
    List (String × String) :=
  [("name", r.Name)]
  ++ (if r.DepartmentID = "" then [] else [("department_id", r.DepartmentID)])
  ++ (if r.DepartmentName = "" then [] else [("department_name", r.DepartmentName)])
  ++ (if r.CustomEmployeeID = "" then [] else [("custom_employee_id", r.CustomEmployeeID)])
  ++ (if r.Title = "" then [] else [("title", r.Title)])
  ++ (if r.HourlyRate = 0 then [] else [("hourly_rate", ratStr r.HourlyRate)])
  ++ (if r.PIN = "" then [] else [("pin", r.PIN)])
  ++ (if r.CustomFields = [] then [] else [("custom_fields", mapStr r.CustomFields)])

/-- encoding/json of an EmployeeUpdateRequest: `name` always present (a
nil pointer encodes as null); every other field carries omitempty and is
omitted when the pointer is nil (for the map: when it is nil or empty). -/
def EmployeeUpdateRequest.jsonFields (r : EmployeeUpdateRequest) :
    List (String × JVal) :=
  [("name", match r.Name with | none => JVal.jnull | some s => JVal.jstr s)]
  ++ (match r.DepartmentID with | none => [] | some s => [("department_id", JVal.jstr s)])
  ++ (match r.DepartmentName with | none => [] | some s => [("department_name", JVal.jstr s)])
  ++ (match r.CustomEmployeeID with | none => [] | some s => [("custom_employee_id", JVal.jstr s)])
  ++ (match r.Title with | none => [] | some s => [("title", JVal.jstr s)])
  ++ (match r.HourlyRate with | none => [] | some q => [("hourly_rate", JVal.jnum q)])
  ++ (match r.PIN with | none => [] | some s => [("pin", JVal.jstr s)])
  ++ (if r.CustomFields = [] then [] else [("custom_fields", JVal.jmap r.CustomFields)])
  ++ (match r.ConvertPrimaryDepartment with
      | none => [] | some b => [("convert_primary_department", JVal.jbool b)])

/-- The request body values dispatched by the resource clients.  The types
with a `form()` method (the formRequest interface) are
DepartmentCreateRequest and EmployeeCreateRequest; EmployeeUpdateRequest
does not implement it. -/
inductive ReqBody
  | deptCreate (r : DepartmentCreateRequest)
  | empCreate (r : EmployeeCreateRequest)
  | empUpdate (r : EmployeeUpdateRequest)
deriving DecidableEq, Repr

/-- The Go type assertion `body.(formRequest)`. -/
def ReqBody.isFormRequest : ReqBody → Bool
  | .deptCreate _ => true
  | .empCreate _ => true
  | .empUpdate _ => false

/-- query.Values on a form body. -/
def ReqBody.formValues : ReqBody → List (String × String)
  | .deptCreate r => r.formValues
  | .empCreate r => r.formValues
  | .empUpdate _ => []

/-- json encoding on a non-form body (only EmployeeUpdateRequest takes the
JSON branch among the dispatched bodies). -/
def ReqBody.jsonFields : ReqBody → List (String × JVal)
  | .deptCreate _ => []
  | .empCreate _ => []
  | .empUpdate r => r.jsonFields

/-- An encoded request payload: the url.Values of a form body (pair list,
before url-encoding) or the field list of a JSON body. -/
inductive EncodedBody
  | formBody (values : List (String × String))
  | jsonBody (fields : List (String × JVal))
deriving DecidableEq, Repr

/-- An http.Request: method, URL, the header collection as an ordered
association list (Header.Add appends, Header.Set replaces) and the
optional encoded payload. -/
structure Request where
  method : String
  url : String
  headers : List (String × String)
  body : Option EncodedBody
deriving DecidableEq, Repr

/-- Header.Add: append a key-value pair. -/
def Request.addHeader (r : Request) (k v : String) : Request :=
  { r with headers := r.headers ++ [(k, v)] }

/-- Header.Set: drop existing values for the key, then add the value. -/
def Request.setHeader (r : Request) (k v : String) : Request :=
  { r with headers := (r.headers.filter fun kv => kv.1 ≠ k) ++ [(k, v)] }

/-- The standard base64 alphabet. -/
def base64Table : List Char :=
  "ABCDEFGHIJKLMNOPQRSTUVWXYZabcdefghijklmnopqrstuvwxyz0123456789+/".toList

/-- One base64 output character for a 6-bit group. -/
def b64Char (n : Nat) : Char := base64Table.getD n 'A'

/-- base64.StdEncoding.EncodeToString over a byte list. -/
def base64EncodeBytes : List Nat → String
  | [] => ""
  | [a] =>
    String.mk [b64Char (a / 4), b64Char (a % 4 * 16)] ++ "=="
  | [a, b] =>
    String.mk [b64Char (a / 4), b64Char (a % 4 * 16 + b / 16), b64Char (b % 16 * 4)] ++ "="
  | a :: b :: c :: rest =>
    String.mk [b64Char (a / 4), b64Char (a % 4 * 16 + b / 16),
               b64Char (b % 16 * 4 + c / 64), b64Char (c % 64)]
    ++ base64EncodeBytes rest

/-- Bytes of a string; the tokens and credentials handled by the client
are ASCII, for which the code point equals the UTF-8 byte. -/
def strBytes (s : String) : List Nat := s.toList.map Char.toNat

/-- The value of the Authorization header set by Request.SetBasicAuth:
`Basic base64(user:pass)`. -/
def basicAuthValue (user pass : String) : String :=
  "Basic " ++ base64EncodeBytes (strBytes (user ++ ":" ++ pass))

/-- Request.SetBasicAuth: Header.Set of the Authorization header. -/
def Request.setBasicAuth (r : Request) (user pass : String) : Request :=
  r.setHeader "Authorization" (basicAuthValue user pass)

/-- Hexadecimal digit characters. -/
def hexDigit (n : Nat) : Char := "0123456789ABCDEF".toList.getD n '0'

/-- Characters that url.QueryEscape leaves unescaped. -/
def isUnreservedQueryChar (c : Char) : Bool :=
  c.isAlphanum || c = '-' || c = '_' || c = '.' || c = '~'

/-- url.QueryEscape of one character (ASCII model). -/
def queryEscapeChar (c : Char) : String :=
  if isUnreservedQueryChar c then String.singleton c
  else if c = ' ' then "+"
  else "%" ++ String.singleton (hexDigit (c.toNat / 16)) ++ String.singleton (hexDigit (c.toNat % 16))

/-- url.QueryEscape of a string. -/
def queryEscape (s : String) : String :=
  String.join (s.toList.map queryEscapeChar)

/-- url.Values.Encode: sort by key, escape, join `k=v` pairs with `&`. -/
def formEncodeStr (vs : List (String × String)) : String :=
  String.intercalate "&" ((sortPairs vs).map fun kv => queryEscape kv.1 ++ "=" ++ queryEscape kv.2)

/-- Minimal JSON string quoting (quote and backslash escaped). -/
def jsonQuote (s : String) : String :=
  "\"" ++ String.join (s.toList.map fun c =>
    if c = '"' then "\\\"" else if c = '\\' then "\\\\" else String.singleton c) ++ "\""

/-- Rendering of a JSON value. -/
def JVal.renderJson : JVal → String
  | .jstr s => jsonQuote s
  | .jnum q => ratStr q
  | .jbool b => if b then "true" else "false"
  | .jnull => "null"
  | .jmap entries =>
    "\x7b" ++ String.intercalate ","
      ((sortPairs entries).map fun kv => jsonQuote kv.1 ++ ":" ++ jsonQuote kv.2) ++ "\x7d"

/-- Rendering of a JSON object body (json.Encoder appends a newline). -/
def jsonEncodeStr (fields : List (String × JVal)) : String :=
  "\x7b" ++ String.intercalate ","
    (fields.map fun kv => jsonQuote kv.1 ++ ":" ++ kv.2.renderJson) ++ "\x7d" ++ "\n"

/-- Rendering of an optional payload for the request dump. -/
def dumpBody : Option EncodedBody → String
  | none => ""
  | some (.formBody vs) => formEncodeStr vs
  | some (.jsonBody fs) => jsonEncodeStr fs

/-- Header lines of a dump. -/
def dumpHeaders (hs : List (String × String)) : String :=
  String.join (hs.map fun kv => kv.1 ++ ": " ++ kv.2 ++ "\r\n")

/-- httputil.DumpRequestOut, modelled structurally: request line, the
headers currently on the request, a blank line, then the payload. -/
def dumpRequestOut (r : Request) : String :=
  r.method ++ " " ++ r.url ++ " HTTP/1.1\r\n" ++ dumpHeaders r.headers ++ "\r\n" ++ dumpBody r.body

/-- An http.Response: the status code and the raw body text.  Decoding of
the body (into the error envelope or the caller's result type) is passed
to the embedding as a function. -/
structure Response where
  statusCode : Nat
  bodyRaw : String
deriving DecidableEq, Repr

/-- httputil.DumpResponse, modelled structurally. -/
def dumpResponse (resp : Response) : String :=
  "HTTP/1.1 " ++ toString resp.statusCode ++ "\r\n\r\n" ++ resp.bodyRaw

/-- One emitted slog record: level, message, and the attributes actually
attached (the attributes bound on the logger used for the call, followed
by the call-site attributes). -/
structure LogEntry where
  level : Level
  msg : String
  attrs : List (String × String)
deriving DecidableEq, Repr

/-- Observable events of one RoundTrip, in order: emitted log records, the
call into the wrapped transport carrying the request actually sent, and
the invocation of mapResponseToError. -/
inductive Event
  | logged (e : LogEntry)
  | wire (sent : Request)
  | mapErrorCalled
deriving DecidableEq, Repr

/-- mtsTransport.logRequest.  A derived logger tagged with the correlation
identifier is created (`logr := t.logr.With(...)`); the source then emits
the debug record through the untagged base logger `t.logr`, so only the
base logger's attributes and the dumped request reach the record.  The
dump never fails in the model, so the error branch (which does use the
tagged logger) is not taken.  `baseAttrs` are the attributes bound on
`t.logr`. -/
def logRequest (baseAttrs : List (String × String)) (req : Request) (cid : String) :
    LogEntry :=
  let _logr := baseAttrs ++ [("correlationID", cid)]
  { level := .debug
    msg := "outbound request"
    attrs := baseAttrs ++ [("request", dumpRequestOut req)] }

/-- mtsTransport.logResponse: same shape as logRequest; the debug record
again goes through the untagged base logger, with attribute key `r`. -/
def logResponse (baseAttrs : List (String × String)) (resp : Response) (cid : String) :
    LogEntry :=
  let _logr := baseAttrs ++ [("correlationID", cid)]
  { level := .debug
    msg := "received response"
    attrs := baseAttrs ++ [("r", dumpResponse resp)] }

/-- mapResponseToError.  `decodeErr` embeds the json decode of the body
into the ErrorResponse envelope with the decode error ignored: it yields
the envelope's inner Error, the zero value `⟨0, ""⟩` when the body is
empty or malformed.  `statusText` embeds http.StatusText.  A zero code is
replaced by the HTTP status code; an empty text by the reason phrase of
the (possibly substituted) code. -/
def mapResponseToError (decodeErr : String → Error) (statusText : Int → String)
    (resp : Response) : Error :=
  let e := decodeErr resp.bodyRaw
  let e1 := if e.ErrorCode = 0 then { e with ErrorCode := (resp.statusCode : Int) } else e
  if e1.ErrorText = "" then { e1 with ErrorText := statusText e1.ErrorCode } else e1

/-- The error outcomes of mtsTransport.RoundTrip: ErrMissingToken, a
wrapped transport failure (`request failed: ...`), or the service Error
produced by mapResponseToError for a non-2XX status. -/
inductive RTError
  | missingToken
  | requestFailed (msg : String)
  | serviceError (e : Error)
deriving DecidableEq, Repr

/-- mtsTransport.RoundTrip.  `env` is $MTS_AUTH_TOKEN, `cid` the value of
`uuid.New().String()`, `wrapped` the wrapped transport, `baseAttrs` the
attributes bound on the transport's logger.  Returns the result and the
ordered event trace: token guard; User-Agent and Accept added; debug dump
of the request (when Debug); basic auth applied; the wire call; debug
dump of the response (when Debug); non-2XX statuses mapped to an error. -/
def roundTrip (conf : Config) (env cid : String)
    (wrapped : Request → Except String Response)
    (decodeErr : String → Error) (statusText : Int → String)
    (baseAttrs : List (String × String)) (req : Request) :
    Except RTError Response × List Event :=
  if conf.GetAuthToken env = "" then
    (.error .missingToken, [])
  else
    let r1 := req.addHeader "User-Agent" conf.GetUserAgent
    let r2 := r1.addHeader "Accept" "application/json"
    let ev1 : List Event := if conf.Debug then [.logged (logRequest baseAttrs r2 cid)] else []
    let r3 := r2.setBasicAuth (conf.GetAuthToken env) ""
    match wrapped r3 with
    | .error msg => (.error (.requestFailed msg), ev1 ++ [.wire r3])
    | .ok resp =>
      let ev2 : List Event := if conf.Debug then [.logged (logResponse baseAttrs resp cid)] else []
      if resp.statusCode < 200 ∨ resp.statusCode > 299 then
        (.error (.serviceError (mapResponseToError decodeErr statusText resp)),
         ev1 ++ [.wire r3] ++ ev2 ++ [.mapErrorCalled])
      else
        (.ok resp, ev1 ++ [.wire r3] ++ ev2)

/-- newHTTPRequest.  With no body, bodyReader stays nil and contentType
stays the empty string; with a body, the formRequest type assertion picks
url-form encoding and its content type, otherwise JSON.  In both cases
`req.Header.Add("Content-Type", contentType)` runs unconditionally on the
fresh request.  The Go error branches (marshal failure, URL parse
failure) are unreachable for the dispatched body types and the URLs the
client builds, so the embedding always returns ok. -/
def newHTTPRequest (method reqURL : String) (body : Option ReqBody) :
    Except String Request :=
  let enc : Option EncodedBody × String :=
    match body with
    | none => (none, "")
    | some b =>
      if b.isFormRequest then
        (some (.formBody b.formValues), "application/x-www-form-urlencoded")
      else
        (some (.jsonBody b.jsonFields), "application/json")
  .ok { method := method
        url := reqURL
        headers := [("Content-Type", enc.2)]
        body := enc.1 }

/-- The error outcomes of httpDo: request construction failure, transport
failure (the http.Client surfaces the RoundTrip error), or a decode
failure on the response body. -/
inductive HTTPCallError
  | buildFailed (msg : String)
  | transportFailed (e : RTError)
  | decodeFailed (msg : String)
deriving DecidableEq, Repr

/-- httpDo combined with mapResponseBody: build the URL from the base URL
and the path, construct the request, run it through the authenticating
transport, and on success decode the JSON body into the caller's result
type (`decode` embeds the generic json decode into T). -/
def httpDo {α : Type} (decode : String → Except String α)
    (conf : Config) (env cid : String)
    (wrapped : Request → Except String Response)
    (decodeErr : String → Error) (statusText : Int → String)
    (baseAttrs : List (String × String))
    (method path : String) (body : Option ReqBody) :
    Except HTTPCallError α × List Event :=
  let url := conf.GetBaseURL ++ path
  match newHTTPRequest method url body with
  | .error e => (.error (.buildFailed e), [])
  | .ok req =>
    match roundTrip conf env cid wrapped decodeErr statusText baseAttrs req with
    | (.error e, evts) => (.error (.transportFailed e), evts)
    | (.ok resp, evts) =>
      ((decode resp.bodyRaw).mapError .decodeFailed, evts)

/-- httpGet: GET with nil body. -/
def httpGet {α : Type} (decode : String → Except String α)
    (conf : Config) (env cid : String)
    (wrapped : Request → Except String Response)
    (decodeErr : String → Error) (statusText : Int → String)
    (baseAttrs : List (String × String)) (path : String) :
    Except HTTPCallError α × List Event :=
  httpDo decode conf env cid wrapped decodeErr statusText baseAttrs "GET" path none

/-- httpPost: POST with a body. -/
def httpPost {α : Type} (decode : String → Except String α)
    (conf : Config) (env cid : String)
    (wrapped : Request → Except String Response)
    (decodeErr : String → Error) (statusText : Int → String)
    (baseAttrs : List (String × String)) (path : String) (body : ReqBody) :
    Except HTTPCallError α × List Event :=
  httpDo decode conf env cid wrapped decodeErr statusText baseAttrs "POST" path (some body)

/-- httpPut: PUT with a body. -/
def httpPut {α : Type} (decode : String → Except String α)
    (conf : Config) (env cid : String)
    (wrapped : Request → Except String Response)
    (decodeErr : String → Error) (statusText : Int → String)
    (baseAttrs : List (String × String)) (path : String) (body : ReqBody) :
    Except HTTPCallError α × List Event :=
  httpDo decode conf env cid wrapped decodeErr statusText baseAttrs "PUT" path (some body)

/-- httpDelete: DELETE with nil body. -/
def httpDelete {α : Type} (decode : String → Except String α)
    (conf : Config) (env cid : String)
    (wrapped : Request → Except String Response)
    (decodeErr : String → Error) (statusText : Int → String)
    (baseAttrs : List (String × String)) (path : String) :
    Except HTTPCallError α × List Event :=
  httpDo decode conf env cid wrapped decodeErr statusText baseAttrs "DELETE" path none

/-- First request sent into the wrapped transport in a trace. -/
def wireRequestOf : List Event → Option Request
  | [] => none
  | .wire r :: _ => some r
  | _ :: rest => wireRequestOf rest

/-- The dumped-request attribute of the first outbound-request log record
in a trace. -/
def requestDumpOf : List Event → Option String
  | [] => none
  | .logged e :: rest =>
    if e.msg = "outbound request" then e.attrs.lookup "request" else requestDumpOf rest
  | _ :: rest => requestDumpOf rest

/-- All emitted log records of a trace, in order. -/
def loggedEntries : List Event → List LogEntry
  | [] => []
  | .logged e :: rest => e :: loggedEntries rest
  | _ :: rest => loggedEntries rest

/-- Whether a request's header collection holds the given key. -/
def hasHeaderKey (r : Request) (k : String) : Bool :=
  r.headers.any fun kv => kv.1 = k

/-- A request with every Authorization header removed. -/
def stripAuth (r : Request) : Request :=
  { r with headers := r.headers.filter fun kv => kv.1 ≠ "Authorization" }

/-- Claim C6 (code behaviour at the defect): Config.GetUserAgent branches
on the auth-token field, not on the user-agent field.  With a non-empty
auth token and an empty user agent it returns the empty string instead of
the library default; with an empty auth token and an explicit user agent
it returns the default instead of the explicit value.  This contradicts
the claim (and the function's own doc comment) that resolution depends
only on the user-agent field. -/
theorem getUserAgent_branches_on_authToken :
    Config.GetUserAgent { AuthToken := "tok", UserAgent := "" } = "" ∧
    Config.GetUserAgent { AuthToken := "", UserAgent := "my-agent" } = defaultUserAgent ∧
    Config.GetUserAgent { AuthToken := "tok", UserAgent := "my-agent" } = "my-agent" := by
  refine ⟨?_, ?_, ?_⟩ <;> decide

/-- Claim C10: with a non-nil custom log handler the resolved logger is
built from exactly that handler and the Debug flag has no effect; the
info-versus-debug level selection applies only when the handler is nil
and the default text logger writing to standard error is built. -/
theorem getLogger_custom_handler_ignores_debug :
    (∀ (c : Config) (h : Nat), c.LogHandler = some h →
      c.GetLogger = Logger.fromHandler h ∧
      ∀ b : Bool, Config.GetLogger { c with Debug := b } = Logger.fromHandler h) ∧
    (∀ c : Config, c.LogHandler = none →
      c.GetLogger = Logger.textLoggerStderr (if c.Debug then Level.debug else Level.info)) := by
  constructor
  · intro c h hc
    constructor
    · simp [Config.GetLogger, hc]
    · intro b
      simp [Config.GetLogger, hc]
  · intro c hc
    simp [Config.GetLogger, hc]

/-- Witness for C10 at concrete configurations. -/
theorem getLogger_custom_handler_ignores_debug_witness :
    Config.GetLogger { LogHandler := some 7, Debug := true } = Logger.fromHandler 7 ∧
    Config.GetLogger { LogHandler := none, Debug := true } = Logger.textLoggerStderr Level.debug := by
  constructor
  · exact (getLogger_custom_handler_ignores_debug.1 { LogHandler := some 7, Debug := true } 7 rfl).1
  · have h := getLogger_custom_handler_ignores_debug.2 { LogHandler := none, Debug := true } rfl
    simpa using h

/-- Claim C3: for a non-2XX response, a decoded envelope with nonzero
code and nonempty text is returned exactly; an empty or malformed body
(zero-valued decode) yields the HTTP status code and the standard reason
phrase for that code.  The mapped error is total (always a value, never
absent). -/
theorem mapResponseToError_envelope_and_fallback :
    (∀ (decodeErr : String → Error) (statusText : Int → String) (resp : Response) (e : Error),
      decodeErr resp.bodyRaw = e → e.ErrorCode ≠ 0 → e.ErrorText ≠ "" →
      mapResponseToError decodeErr statusText resp = e) ∧
    (∀ (decodeErr : String → Error) (statusText : Int → String) (resp : Response),
      decodeErr resp.bodyRaw = { ErrorCode := 0, ErrorText := "" } →
      mapResponseToError decodeErr statusText resp =
        { ErrorCode := (resp.statusCode : Int),
          ErrorText := statusText (resp.statusCode : Int) }) := by
  constructor
  · intro d st resp e hdec hc ht
    simp [mapResponseToError, hdec, hc, ht]
  · intro d st resp hdec
    simp [mapResponseToError, hdec]

/-- Witness for C3: a decoded envelope `[7] boom` on a 404 is kept
exactly; an empty decode on a 404 yields code 404 with its reason
phrase. -/
theorem mapResponseToError_envelope_and_fallback_witness :
    mapResponseToError (fun _ => { ErrorCode := 7, ErrorText := "boom" }) (fun _ => "Reason")
        { statusCode := 404, bodyRaw := "x" } = { ErrorCode := 7, ErrorText := "boom" } ∧
    mapResponseToError (fun _ => { ErrorCode := 0, ErrorText := "" })
        (fun n => if n = 404 then "Not Found" else "?")
        { statusCode := 404, bodyRaw := "" } = { ErrorCode := 404, ErrorText := "Not Found" } := by
  constructor
  · exact mapResponseToError_envelope_and_fallback.1 _ _ _ _ rfl (by decide) (by decide)
  · have h := mapResponseToError_envelope_and_fallback.2
      (fun _ => { ErrorCode := 0, ErrorText := "" })
      (fun n => if n = 404 then "Not Found" else "?")
      { statusCode := 404, bodyRaw := "" } rfl
    simpa using h

/-- Claim C9 (code behaviour at the defect): an empty aggregate is
reported as nil by Sweeper.Sweep, but ErrorList.Error returns from inside
its loop on the first element, so the rendering of a two-element list is
exactly the first element's message and does not contain the second
element's message — the semicolon-joined list of every element never
materializes. -/
theorem errorList_renders_only_first_element :
    Sweeper.sweep [] [] = none ∧
    ErrorList.Error ["[404] Not Found", "[500] Internal Server Error"] = " [404] Not Found ;" ∧
    ¬ ("[500] Internal Server Error".toList <:+:
        (ErrorList.Error ["[404] Not Found", "[500] Internal Server Error"]).toList) := by
  refine ⟨rfl, rfl, ?_⟩
  decide

/-- Claim C5 counterexample: a bodyless GET constructed by newHTTPRequest
does carry a Content-Type header — the key is added unconditionally with
the empty string as its value — so "carries no Content-Type header" fails
even though the payload is indeed absent. -/
theorem nil_body_request_still_has_content_type_key :
    (newHTTPRequest "GET" "https://api.mytimestation.com/v1.2/departments" none).toOption.map
        (fun r => (hasHeaderKey r "Content-Type", r.body)) = some (true, none) := by
  rfl

/-- Claim C5 as amended: a dispatched request built without a body (the
GET and DELETE entry points pass nil) carries no payload, and its only
Content-Type header is present with the empty string as its value. -/
theorem nil_body_request_no_payload_empty_content_type :
    (∀ (method url : String),
      newHTTPRequest method url none =
        .ok { method := method, url := url, headers := [("Content-Type", "")], body := none }) ∧
    (∀ (α : Type) (decode : String → Except String α) (conf : Config) (env cid : String)
        (wrapped : Request → Except String Response)
        (decodeErr : String → Error) (statusText : Int → String)
        (baseAttrs : List (String × String)) (path : String),
      httpGet decode conf env cid wrapped decodeErr statusText baseAttrs path =
        httpDo decode conf env cid wrapped decodeErr statusText baseAttrs "GET" path none ∧
      httpDelete decode conf env cid wrapped decodeErr statusText baseAttrs path =
        httpDo decode conf env cid wrapped decodeErr statusText baseAttrs "DELETE" path none) := by
  constructor
  · intro m u
    rfl
  · intro α decode conf env cid wrapped decodeErr statusText baseAttrs path
    exact ⟨rfl, rfl⟩

/-- Claim C7: a non-nil body tagged as a form request (the department and
employee create requests) is encoded as url-form values under the url-tag
key names with the form content type, where every omitempty field is
present exactly when it is non-zero and the required name field is always
present; any other non-nil body (the employee update request) is encoded
as JSON under the json-tag key names with the JSON content type. -/
theorem body_encoding_by_request_kind :
    (∀ (m u : String) (r : DepartmentCreateRequest),
      newHTTPRequest m u (some (.deptCreate r)) =
        .ok { method := m, url := u,
              headers := [("Content-Type", "application/x-www-form-urlencoded")],
              body := some (.formBody [("name", r.Name)]) }) ∧
    (∀ (m u : String) (r : EmployeeCreateRequest),
      newHTTPRequest m u (some (.empCreate r)) =
        .ok { method := m, url := u,
              headers := [("Content-Type", "application/x-www-form-urlencoded")],
              body := some (.formBody r.formValues) }) ∧
    (∀ (m u : String) (r : EmployeeUpdateRequest),
      newHTTPRequest m u (some (.empUpdate r)) =
        .ok { method := m, url := u,
              headers := [("Content-Type", "application/json")],
              body := some (.jsonBody r.jsonFields) }) ∧
    (∀ r : EmployeeCreateRequest,
      ("name", r.Name) ∈ r.formValues ∧
      (("department_id" ∈ r.formValues.map Prod.fst) ↔ r.DepartmentID ≠ "") ∧
      (("department_name" ∈ r.formValues.map Prod.fst) ↔ r.DepartmentName ≠ "") ∧
      (("custom_employee_id" ∈ r.formValues.map Prod.fst) ↔ r.CustomEmployeeID ≠ "") ∧
      (("title" ∈ r.formValues.map Prod.fst) ↔ r.Title ≠ "") ∧
      (("hourly_rate" ∈ r.formValues.map Prod.fst) ↔ r.HourlyRate ≠ 0) ∧
      (("pin" ∈ r.formValues.map Prod.fst) ↔ r.PIN ≠ "") ∧
      (("custom_fields" ∈ r.formValues.map Prod.fst) ↔ r.CustomFields ≠ [])) := by
  refine ⟨fun m u r => rfl, fun m u r => rfl, fun m u r => rfl, ?_⟩
  intro r
  simp only [EmployeeCreateRequest.formValues]
  split_ifs with h1 h2 h3 h4 h5 h6 h7 <;> simp_all

/-- Claim C4: with an empty explicit token the resolved token is the
environment value; with both empty, RoundTrip fails with the
missing-token error and its trace holds no wire call — the wrapped
transport is never invoked. -/
theorem missing_token_fails_before_network :
    (∀ (c : Config) (env : String), c.AuthToken = "" → env ≠ "" →
      c.GetAuthToken env = env) ∧
    (∀ (conf : Config) (env cid : String)
        (wrapped : Request → Except String Response)
        (decodeErr : String → Error) (statusText : Int → String)
        (baseAttrs : List (String × String)) (req : Request),
      conf.AuthToken = "" → env = "" →
      (roundTrip conf env cid wrapped decodeErr statusText baseAttrs req).1 =
          .error .missingToken ∧
      ∀ r, Event.wire r ∉ (roundTrip conf env cid wrapped decodeErr statusText baseAttrs req).2) := by
  constructor
  · intro c env h _
    simp [Config.GetAuthToken, h]
  · intro conf env cid wrapped decodeErr statusText baseAttrs req h1 h2
    have hz : conf.GetAuthToken env = "" := by
      simp [Config.GetAuthToken, h1, h2]
    refine ⟨?_, ?_⟩
    · simp [roundTrip, hz]
    · intro r
      simp [roundTrip, hz]

/-- Witness for C4: the environment token is resolved when the explicit
token is empty; with both empty a concrete request fails with the
missing-token error. -/
theorem missing_token_fails_before_network_witness :
    Config.GetAuthToken { AuthToken := "" } "envtok" = "envtok" ∧
    (roundTrip {} "" "cid" (fun _ => .ok { statusCode := 200, bodyRaw := "" })
        (fun _ => { ErrorCode := 0, ErrorText := "" }) (fun _ => "") []
        { method := "GET", url := "u", headers := [], body := none }).1 =
      .error .missingToken := by
  constructor
  · exact missing_token_fails_before_network.1 { AuthToken := "" } "envtok" rfl (by decide)
  · exact (missing_token_fails_before_network.2 {} "" "cid"
      (fun _ => .ok { statusCode := 200, bodyRaw := "" })
      (fun _ => { ErrorCode := 0, ErrorText := "" }) (fun _ => "") []
      { method := "GET", url := "u", headers := [], body := none } rfl rfl).1

/-- Claim C8: for a wrapped transport answering with a 2XX response, the
authenticating transport returns the response unchanged and its trace
holds no error-mapper invocation; the dispatcher then decodes the JSON
body into the caller's result type. -/
theorem success_skips_error_mapper_and_decodes :
    ∀ (conf : Config) (env cid : String) (resp : Response)
      (decodeErr : String → Error) (statusText : Int → String)
      (baseAttrs : List (String × String)) (req : Request),
      conf.GetAuthToken env ≠ "" → 200 ≤ resp.statusCode → resp.statusCode ≤ 299 →
      (roundTrip conf env cid (fun _ => .ok resp) decodeErr statusText baseAttrs req).1 =
          .ok resp ∧
      Event.mapErrorCalled ∉
        (roundTrip conf env cid (fun _ => .ok resp) decodeErr statusText baseAttrs req).2 ∧
      ∀ (α : Type) (decode : String → Except String α) (method path : String)
        (body : Option ReqBody),
        (httpDo decode conf env cid (fun _ => .ok resp) decodeErr statusText baseAttrs
            method path body).1 =
          (decode resp.bodyRaw).mapError HTTPCallError.decodeFailed := by
  intro conf env cid resp decodeErr statusText baseAttrs req htok h200 h299
  have hst : ¬ (resp.statusCode < 200 ∨ resp.statusCode > 299) := by omega
  refine ⟨?_, ?_, ?_⟩
  · simp [roundTrip, htok, hst]
  · simp only [roundTrip, if_neg htok, hst, if_false]
    rcases hdbg : conf.Debug with _ | _ <;>
      simp [hdbg, logRequest, logResponse]
  · intro α decode method path body
    rcases hreq : newHTTPRequest method (conf.GetBaseURL ++ path) body with _ | r
    · simp [newHTTPRequest] at hreq
    · simp [httpDo, hreq, roundTrip, htok, hst]

/-- Witness for C8: a 204 response passes through unchanged and the
dispatcher's result is the decoded body. -/
theorem success_skips_error_mapper_and_decodes_witness :
    (roundTrip { AuthToken := "tok" } "" "cid"
        (fun _ => .ok { statusCode := 204, bodyRaw := "payload" })
        (fun _ => { ErrorCode := 0, ErrorText := "" }) (fun _ => "") []
        { method := "GET", url := "u", headers := [], body := none }).1 =
      .ok { statusCode := 204, bodyRaw := "payload" } ∧
    (httpDo (fun s => Except.ok s) { AuthToken := "tok" } "" "cid"
        (fun _ => .ok { statusCode := 204, bodyRaw := "payload" })
        (fun _ => { ErrorCode := 0, ErrorText := "" }) (fun _ => "") []
        "GET" "/departments" none).1 = .ok "payload" := by
  have h := success_skips_error_mapper_and_decodes { AuthToken := "tok" } "" "cid"
    { statusCode := 204, bodyRaw := "payload" }
    (fun _ => { ErrorCode := 0, ErrorText := "" }) (fun _ => "") []
    { method := "GET", url := "u", headers := [], body := none }
    (by decide) (by decide) (by decide)
  refine ⟨h.1, ?_⟩
  have h2 := h.2.2 String (fun s => Except.ok s) "GET" "/departments" none
  simpa using h2

/-- Claim C2 (code behaviour at the defect): in a debug-enabled round
trip both debug records are emitted, but neither carries a correlationID
attribute — logRequest and logResponse emit through the untagged base
logger, so the freshly generated correlation identifier never reaches
the paired entries. -/
theorem debug_entries_lack_correlation_id :
    (loggedEntries (roundTrip { Debug := true, AuthToken := "tok" } "" "cid-123"
        (fun _ => .ok { statusCode := 200, bodyRaw := "" })
        (fun _ => { ErrorCode := 0, ErrorText := "" }) (fun _ => "") []
        { method := "GET", url := "https://api.mytimestation.com/v1.2/departments",
          headers := [], body := none }).2).length = 2 ∧
    (loggedEntries (roundTrip { Debug := true, AuthToken := "tok" } "" "cid-123"
        (fun _ => .ok { statusCode := 200, bodyRaw := "" })
        (fun _ => { ErrorCode := 0, ErrorText := "" }) (fun _ => "") []
        { method := "GET", url := "https://api.mytimestation.com/v1.2/departments",
          headers := [], body := none }).2).all
      (fun e => (e.attrs.lookup "correlationID").isNone) = true := by
  exact ⟨rfl, rfl⟩

/-- Claim C1 counterexample: in a debug-enabled round trip with token
"tok", the request serialized to the debug log differs from the request
sent on the wire — basic auth is applied only after the dump, so the
Authorization header is missing from the logged bytes. -/
theorem logged_request_dump_differs_from_wire :
    requestDumpOf (roundTrip { Debug := true, AuthToken := "tok" } "" "cid-123"
        (fun _ => .ok { statusCode := 200, bodyRaw := "" })
        (fun _ => { ErrorCode := 0, ErrorText := "" }) (fun _ => "") []
        { method := "GET", url := "https://api.mytimestation.com/v1.2/departments",
          headers := [], body := none }).2 ≠
      (wireRequestOf (roundTrip { Debug := true, AuthToken := "tok" } "" "cid-123"
        (fun _ => .ok { statusCode := 200, bodyRaw := "" })
        (fun _ => { ErrorCode := 0, ErrorText := "" }) (fun _ => "") []
        { method := "GET", url := "https://api.mytimestation.com/v1.2/departments",
          headers := [], body := none }).2).map dumpRequestOut := by
  decide

/-- Claim C1 as amended: the User-Agent and Accept header mutation
happens before the debug dump of the outbound request, but basic auth is
applied only after it — for every debug-enabled round trip (with a
resolvable token, no caller-set Authorization header and no extra logger
attributes), the wire request carries the User-Agent, Accept and Basic
Authorization headers, while the request serialized to the debug log
equals the wire request with its Authorization header removed. -/
theorem dump_precedes_basic_auth (conf : Config) (env cid : String)
    (wrapped : Request → Except String Response)
    (decodeErr : String → Error) (statusText : Int → String) (req : Request)
    (hdbg : conf.Debug = true) (htok : ¬ conf.GetAuthToken env = "")
    (hna : ∀ kv ∈ req.headers, kv.1 ≠ "Authorization") :
    ∃ w,
      wireRequestOf (roundTrip conf env cid wrapped decodeErr statusText [] req).2 = some w ∧
      requestDumpOf (roundTrip conf env cid wrapped decodeErr statusText [] req).2 =
        some (dumpRequestOut (stripAuth w)) ∧
      ("User-Agent", conf.GetUserAgent) ∈ w.headers ∧
      ("Accept", "application/json") ∈ w.headers ∧
      ("Authorization", basicAuthValue (conf.GetAuthToken env) "") ∈ w.headers := by
  classical
  refine ⟨((req.addHeader "User-Agent" conf.GetUserAgent).addHeader
      "Accept" "application/json").setBasicAuth (conf.GetAuthToken env) "", ?_, ?_, ?_, ?_, ?_⟩
  case _ =>
    unfold roundTrip
    rw [if_neg htok]
    simp only [hdbg]
    rcases hwr : wrapped (((req.addHeader "User-Agent" conf.GetUserAgent).addHeader
        "Accept" "application/json").setBasicAuth (conf.GetAuthToken env) "") with msg | resp <;>
      simp [hwr, wireRequestOf] <;> split <;> simp [wireRequestOf]
  case _ =>
    have hr2 : ∀ kv ∈ ((req.addHeader "User-Agent" conf.GetUserAgent).addHeader
        "Accept" "application/json").headers, kv.1 ≠ "Authorization" := by
      intro kv hkv
      simp only [Request.addHeader, List.mem_append, List.mem_singleton] at hkv
      rcases hkv with (h | h) | h
      · exact hna kv h
      · subst h; simp
      · subst h; simp
    have hfil2 : List.filter (fun kv => decide (kv.1 ≠ "Authorization"))
        ((req.addHeader "User-Agent" conf.GetUserAgent).addHeader
          "Accept" "application/json").headers =
        ((req.addHeader "User-Agent" conf.GetUserAgent).addHeader
          "Accept" "application/json").headers :=
      List.filter_eq_self.mpr (fun a ha => by simpa using hr2 a ha)
    have hstrip : stripAuth (((req.addHeader "User-Agent" conf.GetUserAgent).addHeader
        "Accept" "application/json").setBasicAuth (conf.GetAuthToken env) "") =
        (req.addHeader "User-Agent" conf.GetUserAgent).addHeader "Accept" "application/json" := by
      simp only [stripAuth, Request.setBasicAuth, Request.setHeader]
      congr 1
      rw [hfil2, List.filter_append, hfil2]
      simp [Request.addHeader]
    rw [hstrip]
    unfold roundTrip
    rw [if_neg htok]
    simp only [hdbg]
    rcases hwr : wrapped (((req.addHeader "User-Agent" conf.GetUserAgent).addHeader
        "Accept" "application/json").setBasicAuth (conf.GetAuthToken env) "") with msg | resp <;>
      simp [hwr, requestDumpOf, logRequest, List.lookup] <;> split <;>
        simp [requestDumpOf, logRequest, List.lookup]
  case _ =>
    simp [Request.setBasicAuth, Request.setHeader, Request.addHeader, List.mem_filter]
  case _ =>
    simp [Request.setBasicAuth, Request.setHeader, Request.addHeader, List.mem_filter]
  case _ =>
    simp [Request.setBasicAuth, Request.setHeader]

/-- Witness for the amended C1 at a concrete debug round trip. -/
theorem dump_precedes_basic_auth_witness :
    ∃ w,
      wireRequestOf (roundTrip { Debug := true, AuthToken := "tok" } "" "cid"
          (fun _ => .ok { statusCode := 200, bodyRaw := "" })
          (fun _ => { ErrorCode := 0, ErrorText := "" }) (fun _ => "") []
          { method := "GET", url := "u", headers := [], body := none }).2 = some w ∧
      requestDumpOf (roundTrip { Debug := true, AuthToken := "tok" } "" "cid"
          (fun _ => .ok { statusCode := 200, bodyRaw := "" })
          (fun _ => { ErrorCode := 0, ErrorText := "" }) (fun _ => "") []
          { method := "GET", url := "u", headers := [], body := none }).2 =
        some (dumpRequestOut (stripAuth w)) ∧
      ("User-Agent", Config.GetUserAgent { Debug := true, AuthToken := "tok" }) ∈ w.headers ∧
      ("Accept", "application/json") ∈ w.headers ∧
      ("Authorization",
        basicAuthValue (Config.GetAuthToken { Debug := true, AuthToken := "tok" } "") "") ∈
        w.headers := by
  exact dump_precedes_basic_auth { Debug := true, AuthToken := "tok" } "" "cid"
    (fun _ => .ok { statusCode := 200, bodyRaw := "" })
    (fun _ => { ErrorCode := 0, ErrorText := "" }) (fun _ => "")
    { method := "GET", url := "u", headers := [], body := none }
    rfl (by decide) (by intro kv h; cases h)

end Gomts
